import Mathlib

/- A verification development for a bulk ticket-creation browser bot
   (`main.py`): the daily-input and master-data loaders, the element
   locator with ordered selector fallback, the searchable-dropdown
   driver, the filter/validation stage of the ticket workflow, and the
   run controller with its retry budget, counters and processed-set.
   The asynchronous browser UI is abstracted as explicit environments
   (oracles) passed to each embedded function. -/

namespace DPBot

/-! ## String primitives

Python's `str.strip` and `str.startswith`, embedded as character-list
operations so that they compute inside the kernel. -/

/-- Strip leading and trailing whitespace from a character list. -/
def stripChars (l : List Char) : List Char :=
  ((l.dropWhile Char.isWhitespace).reverse.dropWhile Char.isWhitespace).reverse

/-- Python's `str.strip()`. -/
def pyStrip (s : String) : String := ⟨stripChars s.data⟩

/-- Python's `str.startswith(c)` for a one-character argument. -/
def startsWithChar (s : String) (c : Char) : Bool :=
  match s.data with
  | [] => false
  | d :: _ => d == c

/-- Substring test: does `needle` occur contiguously inside `hay`?
(The semantics of XPath `contains(hay, needle)`.) -/
def containsSub (hay needle : List Char) : Bool :=
  match hay with
  | [] => needle.isEmpty
  | _ :: t => needle.isPrefixOf hay || containsSub t needle

/-! ## Daily input loader — `DataManager.read_daily_input`

Each line is stripped; lines that are then empty, start with `#`, or
were already seen are skipped; otherwise the stripped line is appended
to the output and recorded in `seen_codes`. -/

/-- The keep predicate on a line: non-empty and not starting with `#`. -/
def keepLine (l : String) : Bool := !(l == "" || startsWithChar l '#')

/-- The loader loop of `DataManager.read_daily_input`, with the
`seen_codes` set made explicit. -/
def readDailyLines (seen : List String) : List String → List String
  | [] => []
  | line :: rest =>
    let l := pyStrip line
    if l == "" || startsWithChar l '#' || seen.contains l then
      readDailyLines seen rest
    else
      l :: readDailyLines (l :: seen) rest

/-- The function `DataManager.read_daily_input`, applied to the list of
lines of the file. -/
def read_daily_input (lines : List String) : List String :=
  readDailyLines [] lines

/-- First-occurrence deduplication: the first occurrence of a value is
kept, later occurrences are dropped, order is otherwise preserved. -/
def dedupFirst (seen : List String) : List String → List String
  | [] => []
  | x :: xs =>
    if seen.contains x then dedupFirst seen xs
    else x :: dedupFirst (x :: seen) xs

/-- Modelled from the claim's words: the loaded code list "skips blank
lines and lines starting with '#', collapses exact-string duplicates
keeping the first occurrence, and otherwise preserves the original
order" — i.e. filter the raw lines and deduplicate them, with no
trimming step anywhere. -/
def claimDailyList (lines : List String) : List String :=
  dedupFirst [] (lines.filter keepLine)

/-! ## Master data loader — `DataManager.load_master_data`

A CSV row is modelled by its three required cells (`Option` because
`csv.DictReader` can yield `None` for a short row); the loader strips
each cell, skips the row when any required cell is then blank, and
otherwise assigns `master_data[kode_dp] = {City, RK, row_number}` —
a Python dict assignment, so a later row with the same code replaces
the earlier entry. -/

structure MasterRow where
  kode : Option String
  city : Option String
  rk : Option String

structure MasterEntry where
  city : String
  rk : String
  row_number : Nat
deriving DecidableEq, Repr

/-- Python's `row[f].strip() if row[f] else ''`. -/
def optStrip : Option String → String
  | none => ""
  | some s => pyStrip s

/-- A row is complete when all three stripped required cells are
non-blank (the negation of the loader's `continue` guard). -/
def rowComplete (r : MasterRow) : Bool :=
  !(optStrip r.kode == "" || optStrip r.city == "" || optStrip r.rk == "")

/-- Python dict assignment `m[k] = e` on an association list: replace
the binding when the key is present, append it otherwise. -/
def insertEntry (m : List (String × MasterEntry)) (k : String) (e : MasterEntry) :
    List (String × MasterEntry) :=
  if m.any (fun p => p.1 == k) then
    m.map (fun p => if p.1 == k then (k, e) else p)
  else m ++ [(k, e)]

/-- Python dict lookup `m.get(k)` on the association list. -/
def lookupEntry (m : List (String × MasterEntry)) (k : String) : Option MasterEntry :=
  (m.find? (fun p => p.1 == k)).map Prod.snd

/-- The row loop of `DataManager.load_master_data`; `n` is the source
row number (`enumerate(reader, start=2)`). -/
def loadMasterRows (n : Nat) (m : List (String × MasterEntry)) :
    List MasterRow → List (String × MasterEntry)
  | [] => m
  | r :: rs =>
    if rowComplete r then
      loadMasterRows (n + 1)
        (insertEntry m (optStrip r.kode) ⟨optStrip r.city, optStrip r.rk, n⟩) rs
    else
      loadMasterRows (n + 1) m rs

/-- The function `DataManager.load_master_data` on the parsed data
rows: the loaded map, or `none` when no usable row was found (the
`ValueError` path). -/
def load_master_data (rows : List MasterRow) : Option (List (String × MasterEntry)) :=
  let m := loadMasterRows 2 [] rows
  if m.isEmpty then none else some m

/-- Every binding of an entry map is complete: non-blank key, city and
region fields. -/
def entryComplete (p : String × MasterEntry) : Prop :=
  p.1 ≠ "" ∧ p.2.city ≠ "" ∧ p.2.rk ≠ ""

/-! ## Element locator — `ElementHelper.find_element_with_fallback`
and `ElementHelper.wait_for_element`

The DOM is abstracted as an environment mapping a selector string to
the element it resolves to within the timeout (`none` for a miss).
`find_element_with_fallback` waits for presence only;
`wait_for_element` waits for presence (or clickability, i.e. visible
and enabled, when `clickable`) and then additionally requires
`is_displayed() and is_enabled()` before returning. -/

structure Elem where
  displayed : Bool
  enabled : Bool
deriving DecidableEq, Repr

/-- The function `ElementHelper.find_element_with_fallback`: first
selector, in declared order, whose element is present; `None` when all
miss. -/
def find_element_with_fallback (env : String → Option Elem) : List String → Option Elem
  | [] => none
  | s :: rest =>
    match env s with
    | some e => some e
    | none => find_element_with_fallback env rest

/-- The function `ElementHelper.wait_for_element`: per selector, wait
for clickability (visible and enabled) or mere presence depending on
`clickable`; a successful wait is followed by the
`is_displayed() and is_enabled()` check, and any failure moves on to
the next selector; `None` when all candidates fail. -/
def wait_for_element (env : String → Option Elem) (clickable : Bool) :
    List String → Option Elem
  | [] => none
  | s :: rest =>
    let waited : Option Elem :=
      match env s with
      | some e =>
        if clickable then (if e.displayed && e.enabled then some e else none)
        else some e
      | none => none
    match waited with
    | some e =>
      if e.displayed && e.enabled then some e
      else wait_for_element env clickable rest
    | none => wait_for_element env clickable rest

/-- Modelled from the claim's words: the locator returns the first
candidate yielding an element satisfying presence alone when
clickability is not required, and presence plus visible plus enabled
when it is. -/
def claimLocate (env : String → Option Elem) (clickable : Bool) :
    List String → Option Elem
  | [] => none
  | s :: rest =>
    match env s with
    | some e =>
      if clickable then
        (if e.displayed && e.enabled then some e else claimLocate env clickable rest)
      else some e
    | none => claimLocate env clickable rest

/-- A selector environment with a single present but hidden element. -/
def hiddenElemEnv : String → Option Elem :=
  fun s => if s == "sel1" then some ⟨false, true⟩ else none

/-- The predicate a candidate of `wait_for_element` must satisfy:
present, displayed and enabled (for either value of `clickable`). -/
def candidateUsable (env : String → Option Elem) (s : String) : Bool :=
  ((env s).map (fun e => e.displayed && e.enabled)).getD false

/-- The predicate a candidate of `find_element_with_fallback` must
satisfy: presence. -/
def candidatePresent (env : String → Option Elem) (s : String) : Bool :=
  (env s).isSome

/-! ## Searchable dropdown driver —
`ElementHelper.handle_vue_select_dropdown`

After typing the value, one attempt resolves an option from the
rendered list by evaluating, in order, the XPath
`//ul[...vs__dropdown-menu...]//li[normalize-space()='value']`
(exact whole-text match), then
`//li[contains(normalize-space(), 'value')]` (substring match), then a
blind arrow-down + enter keyboard confirm. A located option is clicked
with `safe_click`; if the click fails the attempt falls through to the
next strategy. The rendered list is abstracted as the ordered option
texts; click and keyboard success are oracle parameters. -/

/-- Collapse every run of whitespace characters to a single space. -/
def collapseWs : List Char → List Char
  | [] => []
  | [c] => if c.isWhitespace then [' '] else [c]
  | c :: d :: rest =>
    if c.isWhitespace && d.isWhitespace then collapseWs (d :: rest)
    else (if c.isWhitespace then ' ' else c) :: collapseWs (d :: rest)

/-- XPath `normalize-space()`: strip leading/trailing whitespace and
collapse internal whitespace runs to single spaces. -/
def normalizeSpace (s : String) : String := ⟨stripChars (collapseWs s.data)⟩

/-- The exact-match XPath predicate `normalize-space() = value`. -/
def xpathExactMatch (value optionText : String) : Bool :=
  normalizeSpace optionText == value

/-- The substring XPath predicate `contains(normalize-space(), value)`. -/
def xpathContainsMatch (value optionText : String) : Bool :=
  containsSub (normalizeSpace optionText).data value.data

/-- How one attempt of the dropdown driver resolved the value. -/
inductive DropdownPick where
  | exactOpt (t : String)
  | containsOpt (t : String)
  | keyboard
deriving DecidableEq, Repr

/-- One attempt of `ElementHelper.handle_vue_select_dropdown` from the
point where the option list has rendered: exact whole-text match first,
then substring match, then blind keyboard confirm; `none` when every
strategy fails (the attempt then sends escape and is retried). -/
def handle_vue_select_dropdown (clickOk : String → Bool) (keyboardOk : Bool)
    (options : List String) (value : String) : Option DropdownPick :=
  let keyboardStep : Option DropdownPick :=
    if keyboardOk then some .keyboard else none
  let containsStep : Option DropdownPick :=
    match options.find? (xpathContainsMatch value) with
    | some o => if clickOk o then some (.containsOpt o) else keyboardStep
    | none => keyboardStep
  match options.find? (xpathExactMatch value) with
  | some o => if clickOk o then some (.exactOpt o) else containsStep
  | none => containsStep

/-! ## Result validation — `AutomationBot.validate_filter_result` and
the filter loop of `AutomationBot.process_ticket_creation`

A validation sub-attempt observes the result table: whether a displayed
"no data" indicator was found (across the `no_data_message` selector
fallbacks), and the text of the first result row's code cell if a row
rendered. `validate_filter_result` makes up to `max_attempts = 3`
sub-attempts, re-observing only when no indicator and no row was seen.
The filter loop re-submits the filter for up to 3 attempts on a
mismatch; a NO_DATA result fails the item at once; a match proceeds to
the ticket-modal stage. -/

structure ResultPage where
  noData : Bool
  resultRow : Option String
deriving DecidableEq, Repr

/-- The function `AutomationBot.validate_filter_result`: `obs j` is the
observation of the result table during sub-attempt `j`; returns the
`(bool, status)` pair of the source. -/
def validate_filter_result (obs : Nat → ResultPage) (expected : String) :
    Nat → Nat → Bool × String
  | _, 0 => (false, "VALIDATION_FAILED")
  | j, fuel + 1 =>
    let p := obs j
    if p.noData then (false, "NO_DATA")
    else
      match p.resultRow with
      | some t =>
        if pyStrip t == expected then (true, "MATCH") else (false, "MISMATCH")
      | none => validate_filter_result obs expected (j + 1) fuel

/-- The stage of `process_ticket_creation` reached after the filter
loop. -/
inductive FilterOutcome where
  | proceedToModal
  | failNoData
  | failExhausted
deriving DecidableEq, Repr

/-- The filter loop of `AutomationBot.process_ticket_creation`:
`click i` is whether clicking the filter button succeeds on loop
iteration `i`, `obs i` the table observations of that iteration's
validation. Returns the outcome and the number of filter submissions
that were validated. -/
def filter_validation_loop (click : Nat → Bool) (obs : Nat → Nat → ResultPage)
    (expected : String) : Nat → Nat → FilterOutcome × Nat
  | _, 0 => (.failExhausted, 0)
  | i, fuel + 1 =>
    if click i then
      let s := (validate_filter_result (obs i) expected 0 3).2
      if s == "NO_DATA" then (.failNoData, 1)
      else if s == "MATCH" then (.proceedToModal, 1)
      else
        let r := filter_validation_loop click obs expected (i + 1) fuel
        (r.1, r.2 + 1)
    else
      filter_validation_loop click obs expected (i + 1) fuel

/-- The filter/validation stage of `process_ticket_creation`
(`for filter_attempt in range(3)`). -/
def process_ticket_creation_filter (click : Nat → Bool)
    (obs : Nat → Nat → ResultPage) (expected : String) : FilterOutcome × Nat :=
  filter_validation_loop click obs expected 0 3

/-- An observation oracle whose result table always shows the row
`"DP002"`, with no "no data" indicator. -/
def mismatchObs : Nat → Nat → ResultPage := fun _ _ => ⟨false, some "DP002"⟩

/-- An observation oracle whose result table shows a displayed
"no data" indicator. -/
def noDataObs : Nat → Nat → ResultPage := fun _ _ => ⟨true, none⟩

/-- An observation oracle whose result table shows the row `"DP001"`. -/
def matchObs : Nat → Nat → ResultPage := fun _ _ => ⟨false, some "DP001"⟩

/-! ## Run controller — `AutomationBot.run_automation`

The per-item loop over the loaded daily list: a code already in
`processed_dps`, or absent from the master data, is counted as skipped;
otherwise `process_ticket_creation` is run up to `MAX_RETRIES` times
with a page refresh + re-navigation between failed attempts (not after
the last), a refresh failure aborting the remaining attempts. First
success adds the code to `processed_dps` and increments `successful`
once; exhaustion increments `failed` once. An interrupt during an
item's processing fires the `signal_handler` installed by `main()` for
SIGINT/SIGTERM: its `sys.exit(0)` raises `SystemExit`, which neither
`except KeyboardInterrupt` nor `except Exception` catches, so the item
loop is aborted with the state accumulated so far, `generate_final_report`
is skipped, and only the `finally` cleanup runs (the
`except KeyboardInterrupt: break` branch is unreachable under those
handlers). On a run that completes, the report is generated and then
the `finally` cleanup runs. The workflow engine and browser are
abstracted as oracles in `RunEnv`. -/

/-- The setting `Config.MAX_RETRIES` (default `"3"`). -/
def MAX_RETRIES : Nat := 3

structure RunStats where
  successful : Nat
  failed : Nat
  skipped : Nat
deriving DecidableEq, Repr

structure RunState where
  processed : List String
  stats : RunStats
deriving DecidableEq, Repr

/-- Oracles for one run: whether `process_ticket_creation` returns
`True` for a code on a given attempt, whether
`handle_page_refresh_and_navigation` succeeds after that attempt, and
whether a SIGINT arrives (firing the installed `signal_handler`, whose
`sys.exit(0)` raises `SystemExit`) while the item is processed. -/
structure RunEnv where
  ticketOk : String → Nat → Bool
  refreshOk : String → Nat → Bool
  interrupt : String → Bool

/-- Python `set.add`. -/
def setAdd (s : List String) (x : String) : List String :=
  if s.contains x then s else x :: s

/-- The `for attempt in range(MAX_RETRIES)` loop of `run_automation`:
returns whether some attempt succeeded, and the number of
`process_ticket_creation` invocations performed. `k` is the attempt
index, the fuel counts the remaining attempts; between failed attempts
(except after the last) the page is refreshed, a refresh failure
breaking out of the loop. -/
def attempt_loop (env : RunEnv) (code : String) : Nat → Nat → Bool × Nat
  | _, 0 => (false, 0)
  | k, fuel + 1 =>
    if env.ticketOk code k then (true, 1)
    else if fuel == 0 then (false, 1)
    else if env.refreshOk code k then
      let r := attempt_loop env code (k + 1) fuel
      (r.1, r.2 + 1)
    else (false, 1)

structure ItemResult where
  state : RunState
  engineCalls : Nat
deriving DecidableEq, Repr

/-- Increment the `skipped` counter. -/
def bumpSkipped (st : RunState) : RunState :=
  { st with stats := { st.stats with skipped := st.stats.skipped + 1 } }

/-- One iteration of the item loop of `run_automation` for `code`,
given the master-data keys: the skip checks, the retry loop, and the
counter update; also reports how often the workflow engine
(`process_ticket_creation`) was invoked. -/
def process_item (env : RunEnv) (master : List String) (st : RunState)
    (code : String) : ItemResult :=
  if st.processed.contains code then
    ⟨bumpSkipped st, 0⟩
  else if !(master.contains code) then
    ⟨bumpSkipped st, 0⟩
  else
    let r := attempt_loop env code 0 MAX_RETRIES
    if r.1 then
      ⟨⟨setAdd st.processed code,
        { st.stats with successful := st.stats.successful + 1 }⟩, r.2⟩
    else
      ⟨⟨st.processed,
        { st.stats with failed := st.stats.failed + 1 }⟩, r.2⟩

/-- The item loop of `run_automation`: processes the codes in order.
An interrupt during an item aborts the loop (via the uncaught
`SystemExit`) with the in-memory state accumulated over the preceding
items; the interrupted item touches no counter. -/
def run_loop (env : RunEnv) (master : List String) :
    List String → RunState → RunState
  | [], st => st
  | code :: rest, st =>
    if env.interrupt code then st
    else run_loop env master rest (process_item env master st code).state

/-- Whether the item loop is aborted by the interrupt handler
(`SystemExit` raised during some item before the list is exhausted);
mirrors the control flow of `run_loop`, which is independent of the
accumulated state. -/
def run_loop_aborted (env : RunEnv) : List String → Bool
  | [] => false
  | code :: rest =>
    if env.interrupt code then true else run_loop_aborted env rest

/-- The controller state at the start of a run (`processed_dps.clear()`
and zeroed counters). -/
def initState : RunState := ⟨[], 0, 0, 0⟩

/-- Observable run-level effects after the item loop: the final report
(with the final counters and the loaded item total) emitted by
`generate_final_report`, and the `cleanup` performed in the `finally`
block of `run_automation`. -/
inductive RunEffect where
  | report (stats : RunStats) (totalItems : Nat)
  | cleanup
deriving DecidableEq, Repr

/-- The function `AutomationBot.run_automation` from the point where
master data and the daily input were loaded: runs the item loop over
the deduplicated daily list and returns the final state together with
the ordered run-level effects. When a SIGINT aborts the loop, the
`SystemExit` raised by the installed `signal_handler` propagates past
`except KeyboardInterrupt` and `except Exception`, so
`generate_final_report` is skipped and only the `finally` cleanup
runs; on a completed loop the report is emitted and then the cleanup. -/
def run_automation (env : RunEnv) (master : List String)
    (fileLines : List String) : RunState × List RunEffect :=
  let dailyList := read_daily_input fileLines
  let finalState := run_loop env master dailyList initState
  if run_loop_aborted env dailyList then
    (finalState, [RunEffect.cleanup])
  else
    (finalState,
      [RunEffect.report finalState.stats dailyList.length, RunEffect.cleanup])

/-- An environment in which the engine always fails and refreshes
always succeed. -/
def allFailEnv : RunEnv :=
  ⟨fun _ _ => false, fun _ _ => true, fun _ => false⟩

/-- An environment in which the engine always succeeds at once. -/
def allOkEnv : RunEnv :=
  ⟨fun _ _ => true, fun _ _ => true, fun _ => false⟩

/-- An environment interrupted while processing `"DP002"`. -/
def interruptedEnv : RunEnv :=
  ⟨fun _ _ => true, fun _ _ => true, fun c => c == "DP002"⟩

/-! ## Final report — `AutomationBot.generate_final_report`

Here `new_items = total_items - skipped` (Python integer subtraction,
hence modelled in `Int`), and the success rate
`successful / new_items * 100` is computed and logged only when
`new_items > 0`. -/

/-- The success-rate computation of `generate_final_report`: `some`
rate when it is reported, `none` when the guard suppresses it. -/
def success_rate (successful skipped totalItems : Nat) : Option Rat :=
  let newItems : Int := (totalItems : Int) - (skipped : Int)
  if 0 < newItems then
    some ((successful : Rat) / (newItems : Rat) * 100)
  else none

/-! ## Theorems -/

theorem readDailyLines_eq_dedupFirst (lines : List String) :
    ∀ seen, readDailyLines seen lines =
      dedupFirst seen ((lines.map pyStrip).filter keepLine) := by
  induction lines with
  | nil => intro seen; rfl
  | cons line rest ih =>
    intro seen
    by_cases hk : keepLine (pyStrip line) = true
    · have hsk : (pyStrip line == "" || startsWithChar (pyStrip line) '#') = false := by
        simpa [keepLine] using hk
      by_cases hs : (seen.contains (pyStrip line)) = true
      · simp [readDailyLines, dedupFirst, List.filter, hk, hsk, hs, ih]
      · simp only [Bool.not_eq_true] at hs
        simp [readDailyLines, dedupFirst, List.filter, hk, hsk, hs, ih]
    · simp only [Bool.not_eq_true] at hk
      have hsk : (pyStrip line == "" || startsWithChar (pyStrip line) '#') = true := by
        have h2 := congrArg Bool.not (show keepLine (pyStrip line) = false from hk)
        simpa [keepLine] using h2
      simp [readDailyLines, dedupFirst, List.filter, hk, hsk, ih]

/-- C6 (corrected): the daily loader strips each line before testing it
and before recording it, so a line such as `" #A"` — which is neither
blank nor starts with `'#'` — is nevertheless skipped, and `"A "` is
loaded as `"A"`, not kept verbatim as the claim's reading predicts. -/
theorem C6_raw_line_counterexample :
    read_daily_input [" #A"] = [] ∧
    claimDailyList [" #A"] = [" #A"] ∧
    read_daily_input [" #A"] ≠ claimDailyList [" #A"] ∧
    read_daily_input ["A "] = ["A"] ∧
    claimDailyList ["A "] = ["A "] := by
  refine ⟨by decide, by decide, by decide, by decide, by decide⟩

/-- C6 (amended): each line of the daily input is first stripped of
surrounding whitespace; lines that are then blank or start with `'#'`
are skipped; duplicates (exact string match of the stripped lines)
collapse to the first occurrence; order is otherwise preserved, and the
loaded entries are the stripped lines. In particular
`["A","B","A"]` loads as `["A","B"]`. -/
theorem C6_daily_input_amended :
    (∀ lines, read_daily_input lines =
      dedupFirst [] ((lines.map pyStrip).filter keepLine)) ∧
    read_daily_input ["A", "B", "A"] = ["A", "B"] := by
  refine ⟨fun lines => readDailyLines_eq_dedupFirst lines [], by decide⟩

theorem loadMasterRows_cons (n : Nat) (m : List (String × MasterEntry))
    (a : MasterRow) (rs : List MasterRow) :
    loadMasterRows n m (a :: rs) =
      if rowComplete a then
        loadMasterRows (n + 1)
          (insertEntry m (optStrip a.kode) ⟨optStrip a.city, optStrip a.rk, n⟩) rs
      else loadMasterRows (n + 1) m rs := rfl

theorem insertEntry_length (m : List (String × MasterEntry)) (k : String) (e : MasterEntry) :
    (insertEntry m k e).length ≤ m.length + 1 := by
  unfold insertEntry
  by_cases h : (m.any fun p => p.1 == k) = true
  · rw [if_pos h]; simp
  · rw [if_neg h]; simp

theorem loadMasterRows_length (rows : List MasterRow) :
    ∀ n m, (loadMasterRows n m rows).length ≤ m.length + rows.length := by
  induction rows with
  | nil => intro n m; simp [loadMasterRows]
  | cons r rs ih =>
    intro n m
    rw [loadMasterRows_cons]
    by_cases h : rowComplete r = true
    · rw [if_pos h]
      calc (loadMasterRows (n + 1)
              (insertEntry m (optStrip r.kode) ⟨optStrip r.city, optStrip r.rk, n⟩) rs).length
          ≤ (insertEntry m (optStrip r.kode) ⟨optStrip r.city, optStrip r.rk, n⟩).length
              + rs.length := ih _ _
        _ ≤ (m.length + 1) + rs.length := by
              exact Nat.add_le_add_right (insertEntry_length m _ _) _
        _ = m.length + (r :: rs).length := by
              simp only [List.length_cons]; omega
    · rw [if_neg h]
      calc (loadMasterRows (n + 1) m rs).length ≤ m.length + rs.length := ih _ _
        _ ≤ m.length + (r :: rs).length := by
              simp only [List.length_cons]; omega

theorem insertEntry_complete {m : List (String × MasterEntry)} {k : String} {e : MasterEntry}
    (hm : ∀ p ∈ m, entryComplete p) (hk : k ≠ "") (hc : e.city ≠ "") (hr : e.rk ≠ "") :
    ∀ p ∈ insertEntry m k e, entryComplete p := by
  intro p hp
  unfold insertEntry at hp
  by_cases h : (m.any fun q => q.1 == k) = true
  · rw [if_pos h] at hp
    rw [List.mem_map] at hp
    obtain ⟨q, hq, rfl⟩ := hp
    by_cases hqk : (q.1 == k) = true
    · rw [if_pos hqk]
      exact ⟨hk, hc, hr⟩
    · rw [if_neg hqk]
      exact hm q hq
  · rw [if_neg h] at hp
    rw [List.mem_append, List.mem_singleton] at hp
    rcases hp with hp | hp
    · exact hm p hp
    · subst hp; exact ⟨hk, hc, hr⟩

theorem loadMasterRows_complete (rows : List MasterRow) :
    ∀ n m, (∀ p ∈ m, entryComplete p) →
      ∀ p ∈ loadMasterRows n m rows, entryComplete p := by
  induction rows with
  | nil => intro n m hm; simpa [loadMasterRows] using hm
  | cons r rs ih =>
    intro n m hm
    rw [loadMasterRows_cons]
    by_cases h : rowComplete r = true
    · rw [if_pos h]
      have h3 : ¬(optStrip r.kode == "" || optStrip r.city == "" || optStrip r.rk == "") = true := by
        simpa [rowComplete] using h
      simp only [Bool.or_eq_true, beq_iff_eq, not_or] at h3
      exact ih _ _ (insertEntry_complete hm h3.1.1 h3.1.2 h3.2)
    · rw [if_neg h]
      exact ih _ _ hm

theorem find?_map_replace (k : String) (e : MasterEntry) :
    ∀ m : List (String × MasterEntry), (∃ q ∈ m, (q.1 == k) = true) →
      (m.map (fun p => if p.1 == k then (k, e) else p)).find? (fun p => p.1 == k) =
        some (k, e) := by
  intro m
  induction m with
  | nil => intro h; simp at h
  | cons a as ihm =>
    intro h
    simp only [List.map_cons]
    by_cases hak : (a.1 == k) = true
    · rw [if_pos hak, List.find?_cons_of_pos _ (by simp)]
    · rw [if_neg hak]
      have hcons := List.find?_cons_of_neg (p := fun q => (q.1 == k))
        (List.map (fun p => if p.1 == k then (k, e) else p) as) hak
      rw [hcons]
      obtain ⟨q, hq, hqk⟩ := h
      rw [List.mem_cons] at hq
      rcases hq with rfl | hq
      · exact absurd hqk hak
      · exact ihm ⟨q, hq, hqk⟩

theorem lookupEntry_insertEntry (m : List (String × MasterEntry)) (k : String) (e : MasterEntry) :
    lookupEntry (insertEntry m k e) k = some e := by
  unfold insertEntry
  by_cases h : (m.any fun p => p.1 == k) = true
  · rw [if_pos h]
    rw [List.any_eq_true] at h
    unfold lookupEntry
    rw [find?_map_replace k e m h]
    rfl
  · rw [if_neg h]
    unfold lookupEntry
    rw [List.find?_append]
    have hnone : m.find? (fun p => p.1 == k) = none := by
      rw [List.find?_eq_none]
      intro p hp
      rw [Bool.not_eq_true] at h
      rw [List.any_eq_false] at h
      simpa using h p hp
    simp [hnone, List.find?]

theorem loadMasterRows_append (rows : List MasterRow) (r : MasterRow) :
    ∀ n m, loadMasterRows n m (rows ++ [r]) =
      if rowComplete r then
        insertEntry (loadMasterRows n m rows) (optStrip r.kode)
          ⟨optStrip r.city, optStrip r.rk, n + rows.length⟩
      else loadMasterRows n m rows := by
  induction rows with
  | nil =>
    intro n m
    by_cases h : rowComplete r = true
    · simp [loadMasterRows, loadMasterRows_cons, if_pos h]
    · rw [List.nil_append, loadMasterRows_cons, if_neg h, if_neg h]
      rfl
  | cons a as ih =>
    intro n m
    rw [List.cons_append, loadMasterRows_cons, loadMasterRows_cons]
    have hlen : n + 1 + as.length = n + (a :: as).length := by
      simp only [List.length_cons]; omega
    by_cases ha : rowComplete a = true
    · rw [if_pos ha, if_pos ha, ih, hlen]
    · rw [if_neg ha, if_neg ha, ih, hlen]

/-- C7: every row with a blank (after stripping) code, city or region
field is excluded from the loaded map — the map has at most as many
entries as the input has rows, and every entry it does contain has all
three fields non-blank — and when the same code appears in several
complete rows, the fields of the last occurrence win. -/
theorem C7_master_data :
    (∀ rows, (loadMasterRows 2 [] rows).length ≤ rows.length) ∧
    (∀ rows p, p ∈ loadMasterRows 2 [] rows →
      p.1 ≠ "" ∧ p.2.city ≠ "" ∧ p.2.rk ≠ "") ∧
    (∀ rows r, rowComplete r = false →
      loadMasterRows 2 [] (rows ++ [r]) = loadMasterRows 2 [] rows) ∧
    (∀ rows r, rowComplete r = true →
      lookupEntry (loadMasterRows 2 [] (rows ++ [r])) (optStrip r.kode) =
        some ⟨optStrip r.city, optStrip r.rk, 2 + rows.length⟩) := by
  refine ⟨?_, ?_, ?_, ?_⟩
  · intro rows
    simpa using loadMasterRows_length rows 2 []
  · intro rows p hp
    exact loadMasterRows_complete rows 2 [] (by simp) p hp
  · intro rows r h
    rw [loadMasterRows_append rows r 2 [], h]
    simp
  · intro rows r h
    rw [loadMasterRows_append rows r 2 [], if_pos h]
    exact lookupEntry_insertEntry _ _ _

/-- C7 witness: a duplicate-code table whose second binding wins, with
an incomplete row excluded. -/
theorem C7_master_data_witness :
    rowComplete ⟨some "DP001", some "CityB", some "RK2"⟩ = true ∧
    rowComplete ⟨some "DP002", some "", some "RK1"⟩ = false ∧
    (loadMasterRows 2 []
        [⟨some "DP001", some "CityA", some "RK1"⟩] ++ []).length ≤ 1 ∧
    lookupEntry
      (loadMasterRows 2 []
        ([⟨some "DP001", some "CityA", some "RK1"⟩] ++
          [⟨some "DP001", some "CityB", some "RK2"⟩]))
      "DP001" = some ⟨"CityB", "RK2", 3⟩ ∧
    loadMasterRows 2 []
        ([⟨some "DP001", some "CityA", some "RK1"⟩] ++
          [⟨some "DP002", some "", some "RK1"⟩]) =
      loadMasterRows 2 [] [⟨some "DP001", some "CityA", some "RK1"⟩] := by
  refine ⟨by decide, by decide, ?_, ?_, ?_⟩
  · simpa using C7_master_data.1 [⟨some "DP001", some "CityA", some "RK1"⟩]
  · have h := C7_master_data.2.2.2 [⟨some "DP001", some "CityA", some "RK1"⟩]
      ⟨some "DP001", some "CityB", some "RK2"⟩ (by decide)
    simpa using h
  · exact C7_master_data.2.2.1 [⟨some "DP001", some "CityA", some "RK1"⟩]
      ⟨some "DP002", some "", some "RK1"⟩ (by decide)

/-- C8 (corrected): with `clickable=False`, `wait_for_element` still
requires `is_displayed() and is_enabled()` after the presence wait, so
a present-but-hidden element is rejected, where the claim's
"presence alone" reading would return it. -/
theorem C8_presence_counterexample :
    hiddenElemEnv "sel1" = some ⟨false, true⟩ ∧
    wait_for_element hiddenElemEnv false ["sel1"] = none ∧
    claimLocate hiddenElemEnv false ["sel1"] = some ⟨false, true⟩ ∧
    wait_for_element hiddenElemEnv false ["sel1"] ≠
      claimLocate hiddenElemEnv false ["sel1"] := by
  refine ⟨by decide, by decide, by decide, by decide⟩

theorem wait_for_element_eq_find? (env : String → Option Elem) (clickable : Bool) :
    ∀ sels : List String,
      wait_for_element env clickable sels =
        (sels.find? (candidateUsable env)).bind env := by
  intro sels
  induction sels with
  | nil => rfl
  | cons s rest ih =>
    by_cases hu : candidateUsable env s = true
    · rw [List.find?_cons_of_pos _ hu]
      cases henv : env s with
      | none => simp [candidateUsable, henv] at hu
      | some e =>
        have hde : (e.displayed && e.enabled) = true := by
          simpa [candidateUsable, henv] using hu
        cases clickable with
        | false => simp [wait_for_element, henv, hde]
        | true => simp [wait_for_element, henv, hde]
    · have hcons := List.find?_cons_of_neg (p := candidateUsable env) rest hu
      rw [hcons, ← ih]
      cases henv : env s with
      | none =>
        cases clickable with
        | false => simp [wait_for_element, henv]
        | true => simp [wait_for_element, henv]
      | some e =>
        have hde : (e.displayed && e.enabled) = false := by
          have := hu
          simp only [candidateUsable, henv, Option.map_some, Option.getD_some,
            Bool.not_eq_true] at this
          exact this
        cases clickable with
        | false => simp [wait_for_element, henv, hde]
        | true => simp [wait_for_element, henv, hde]

theorem find_element_with_fallback_eq_find? (env : String → Option Elem) :
    ∀ sels : List String,
      find_element_with_fallback env sels =
        (sels.find? (candidatePresent env)).bind env := by
  intro sels
  induction sels with
  | nil => rfl
  | cons s rest ih =>
    cases henv : env s with
    | none =>
      have hne : ¬ candidatePresent env s = true := by simp [candidatePresent, henv]
      have hcons := List.find?_cons_of_neg (p := candidatePresent env) rest hne
      rw [hcons, ← ih]
      simp [find_element_with_fallback, henv]
    | some e =>
      rw [List.find?_cons_of_pos _ (by simp [candidatePresent, henv])]
      simp [find_element_with_fallback, henv]

/-- C8 (amended): candidates are tried strictly in declared order;
`find_element_with_fallback` returns the element of the first candidate
satisfying presence, while `wait_for_element` returns the element of
the first candidate that is present, displayed and enabled — also when
clickability is not required — and both return "not found" (`none`)
when no candidate succeeds within the timeout. -/
theorem C8_locator_amended :
    (∀ (env : String → Option Elem) (sels : List String),
      find_element_with_fallback env sels =
        (sels.find? (candidatePresent env)).bind env) ∧
    (∀ (env : String → Option Elem) (clickable : Bool) (sels : List String),
      wait_for_element env clickable sels =
        (sels.find? (candidateUsable env)).bind env) ∧
    (∀ (env : String → Option Elem) (clickable : Bool),
      wait_for_element env clickable [] = none ∧
      find_element_with_fallback env [] = none) :=
  ⟨fun env sels => find_element_with_fallback_eq_find? env sels,
   fun env clickable sels => wait_for_element_eq_find? env clickable sels,
   fun _ _ => ⟨rfl, rfl⟩⟩

/-- C2: the dropdown driver tries exact whole-text match, then
substring match, then blind keyboard confirm, in that strict order; so
for option texts `["ABC","ABCD"]` and value `"ABC"` the exact strategy
selects `"ABC"` and never `"ABCD"`, although the substring strategy
would also accept `"ABCD"`. -/
theorem C2_dropdown_precedence :
    (∀ (clickOk : String → Bool) (keyboardOk : Bool)
       (options : List String) (value o : String),
      options.find? (xpathExactMatch value) = some o → clickOk o = true →
        handle_vue_select_dropdown clickOk keyboardOk options value =
          some (.exactOpt o)) ∧
    (∀ (clickOk : String → Bool) (keyboardOk : Bool)
       (options : List String) (value o : String),
      options.find? (xpathExactMatch value) = none →
      options.find? (xpathContainsMatch value) = some o → clickOk o = true →
        handle_vue_select_dropdown clickOk keyboardOk options value =
          some (.containsOpt o)) ∧
    (∀ (clickOk : String → Bool) (options : List String) (value : String),
      options.find? (xpathExactMatch value) = none →
      options.find? (xpathContainsMatch value) = none →
        handle_vue_select_dropdown clickOk true options value =
          some .keyboard) ∧
    (handle_vue_select_dropdown (fun _ => true) true ["ABC", "ABCD"] "ABC" =
      some (.exactOpt "ABC") ∧
     xpathContainsMatch "ABC" "ABCD" = true) := by
  refine ⟨?_, ?_, ?_, by decide, by decide⟩
  · intro clickOk keyboardOk options value o hfind hclick
    unfold handle_vue_select_dropdown
    rw [hfind]
    simp [hclick]
  · intro clickOk keyboardOk options value o hex hfind hclick
    unfold handle_vue_select_dropdown
    rw [hex, hfind]
    simp [hclick]
  · intro clickOk options value hex hcon
    unfold handle_vue_select_dropdown
    rw [hex, hcon]
    simp

/-- C2 witness: the spec's own instance — option texts
`["ABC","ABCD"]`, value `"ABC"`, clicks succeeding. -/
theorem C2_dropdown_precedence_witness :
    (["ABC", "ABCD"].find? (xpathExactMatch "ABC") = some "ABC") ∧
    ((fun (_ : String) => true) "ABC" = true) ∧
    handle_vue_select_dropdown (fun _ => true) true ["ABC", "ABCD"] "ABC" =
      some (.exactOpt "ABC") :=
  ⟨by decide, rfl,
   C2_dropdown_precedence.1 (fun _ => true) true ["ABC", "ABCD"] "ABC" "ABC"
     (by decide) rfl⟩

theorem validate_mismatch (obs : Nat → ResultPage) (expected t : String)
    (hnd : (obs 0).noData = false) (hrow : (obs 0).resultRow = some t)
    (hne : pyStrip t ≠ expected) :
    validate_filter_result obs expected 0 3 = (false, "MISMATCH") := by
  unfold validate_filter_result
  rw [if_neg (by rw [hnd]; simp), hrow]
  simp [hne]

theorem filter_loop_mismatch (click : Nat → Bool) (obs : Nat → Nat → ResultPage)
    (expected : String) (hclick : ∀ i, click i = true)
    (hv : ∀ i, validate_filter_result (obs i) expected 0 3 = (false, "MISMATCH")) :
    ∀ fuel i, filter_validation_loop click obs expected i fuel =
      (.failExhausted, fuel) := by
  intro fuel
  induction fuel with
  | zero => intro i; rfl
  | succ n ih =>
    intro i
    unfold filter_validation_loop
    rw [if_pos (hclick i), hv i]
    simp only [ih (i + 1)]
    simp

/-- C1: given an expected code, the result-validation stage (a) fails
the item at once on a displayed "no data" indicator, with that single
filter submission and no retry; (b) proceeds to the ticket-modal stage
when the first row's code cell text (stripped) equals the expected
code; (c) re-submits the filter on a mismatch, bounded at 3 filter
attempts, after which the item fails. -/
theorem C1_result_validation :
    (∀ (click : Nat → Bool) (obs : Nat → Nat → ResultPage) (expected : String),
      click 0 = true → (obs 0 0).noData = true →
        process_ticket_creation_filter click obs expected = (.failNoData, 1)) ∧
    (∀ (click : Nat → Bool) (obs : Nat → Nat → ResultPage) (expected t : String),
      click 0 = true → (obs 0 0).noData = false →
      (obs 0 0).resultRow = some t → pyStrip t = expected →
        process_ticket_creation_filter click obs expected = (.proceedToModal, 1)) ∧
    (∀ (click : Nat → Bool) (obs : Nat → Nat → ResultPage) (expected : String),
      (∀ i, click i = true) →
      (∀ i j, (obs i j).noData = false) →
      (∀ i j, ∃ t, (obs i j).resultRow = some t ∧ pyStrip t ≠ expected) →
        process_ticket_creation_filter click obs expected = (.failExhausted, 3)) := by
  refine ⟨?_, ?_, ?_⟩
  · intro click obs expected hclick hnd
    unfold process_ticket_creation_filter filter_validation_loop
    rw [if_pos hclick]
    have hv : validate_filter_result (obs 0) expected 0 3 = (false, "NO_DATA") := by
      unfold validate_filter_result
      rw [if_pos hnd]
    rw [hv]
    simp
  · intro click obs expected t hclick hnd hrow heq
    unfold process_ticket_creation_filter filter_validation_loop
    rw [if_pos hclick]
    have hv : validate_filter_result (obs 0) expected 0 3 = (true, "MATCH") := by
      unfold validate_filter_result
      rw [if_neg (by rw [hnd]; simp), hrow]
      simp [heq]
    rw [hv]
    simp
  · intro click obs expected hclick hnd hrow
    have hv : ∀ i, validate_filter_result (obs i) expected 0 3 =
        (false, "MISMATCH") := by
      intro i
      obtain ⟨t, hrt, hne⟩ := hrow i 0
      exact validate_mismatch (obs i) expected t (hnd i 0) hrt hne
    exact filter_loop_mismatch click obs expected hclick hv 3 0

/-- C1 witness: the spec's three scenarios for expected code
`"DP001"` — a "no data" indicator fails at once after one filter
submission, a `"DP001"` row proceeds to the ticket modal, and a
persistent `"DP002"` row exhausts the 3 bounded filter attempts. -/
theorem C1_result_validation_witness :
    ((fun (_ : Nat) => true) 0 = true ∧ (noDataObs 0 0).noData = true ∧
      process_ticket_creation_filter (fun _ => true) noDataObs "DP001" =
        (.failNoData, 1)) ∧
    ((matchObs 0 0).resultRow = some "DP001" ∧ pyStrip "DP001" = "DP001" ∧
      process_ticket_creation_filter (fun _ => true) matchObs "DP001" =
        (.proceedToModal, 1)) ∧
    ((∀ i j, ∃ t, (mismatchObs i j).resultRow = some t ∧ pyStrip t ≠ "DP001") ∧
      process_ticket_creation_filter (fun _ => true) mismatchObs "DP001" =
        (.failExhausted, 3)) := by
  refine ⟨⟨rfl, rfl, ?_⟩, ⟨rfl, by decide, ?_⟩, ⟨?_, ?_⟩⟩
  · exact C1_result_validation.1 (fun _ => true) noDataObs "DP001" rfl rfl
  · exact C1_result_validation.2.1 (fun _ => true) matchObs "DP001" "DP001"
      rfl rfl rfl (by decide)
  · intro i j
    exact ⟨"DP002", rfl, by decide⟩
  · exact C1_result_validation.2.2 (fun _ => true) mismatchObs "DP001"
      (fun _ => rfl) (fun _ _ => rfl)
      (fun _ _ => ⟨"DP002", rfl, by decide⟩)

theorem attempt_loop_all_fail (env : RunEnv) (code : String)
    (hfail : ∀ k, env.ticketOk code k = false)
    (hrefresh : ∀ k, env.refreshOk code k = true) :
    ∀ fuel k, 0 < fuel → attempt_loop env code k fuel = (false, fuel) := by
  intro fuel
  induction fuel with
  | zero => intro k h; omega
  | succ n ih =>
    intro k _
    unfold attempt_loop
    rw [if_neg (by rw [hfail k]; simp)]
    cases n with
    | zero => rfl
    | succ m =>
      rw [if_neg (by simp), if_pos (hrefresh k), ih (k + 1) (by omega)]

/-- C3: for a fresh code present in the master data, if the workflow
engine fails on all `MAX_RETRIES` attempts (with recovery refreshes
succeeding) the `failed` counter is incremented exactly once — not once
per attempt — and nothing else changes; if the first attempt succeeds,
the code is added to the processed set and `successful` is incremented
exactly once, after a single engine invocation. -/
theorem C3_retry_budget :
    ∀ (env : RunEnv) (master : List String) (st : RunState) (code : String),
      st.processed.contains code = false → master.contains code = true →
      ((∀ k, env.ticketOk code k = false) → (∀ k, env.refreshOk code k = true) →
        process_item env master st code =
          ⟨⟨st.processed,
            { st.stats with failed := st.stats.failed + 1 }⟩, MAX_RETRIES⟩) ∧
      (env.ticketOk code 0 = true →
        process_item env master st code =
          ⟨⟨setAdd st.processed code,
            { st.stats with successful := st.stats.successful + 1 }⟩, 1⟩) := by
  intro env master st code hfresh hmaster
  constructor
  · intro hfail hrefresh
    unfold process_item
    rw [if_neg (by rw [hfresh]; simp), if_neg (by rw [hmaster]; simp)]
    rw [attempt_loop_all_fail env code hfail hrefresh MAX_RETRIES 0 (by decide)]
    rfl
  · intro hfirst
    unfold process_item
    rw [if_neg (by rw [hfresh]; simp), if_neg (by rw [hmaster]; simp)]
    have h1 : attempt_loop env code 0 MAX_RETRIES = (true, 1) := by
      simp [attempt_loop, MAX_RETRIES, hfirst]
    rw [h1]
    rfl

/-- C3 witness: a fresh code `"DP001"` under the always-failing and the
first-attempt-success environments. -/
theorem C3_retry_budget_witness :
    (initState.processed.contains "DP001" = false ∧
      ["DP001"].contains "DP001" = true) ∧
    process_item allFailEnv ["DP001"] initState "DP001" =
      ⟨⟨[], 0, 1, 0⟩, 3⟩ ∧
    process_item allOkEnv ["DP001"] initState "DP001" =
      ⟨⟨["DP001"], 1, 0, 0⟩, 1⟩ := by
  refine ⟨⟨by decide, by decide⟩, ?_, ?_⟩
  · have h := (C3_retry_budget allFailEnv ["DP001"] initState "DP001"
      (by decide) (by decide)).1 (fun _ => rfl) (fun _ => rfl)
    simpa [initState, MAX_RETRIES] using h
  · have h := (C3_retry_budget allOkEnv ["DP001"] initState "DP001"
      (by decide) (by decide)).2 rfl
    simpa [initState, setAdd] using h

theorem process_item_eq (env : RunEnv) (master : List String) (st : RunState)
    (code : String) :
    process_item env master st code =
      if st.processed.contains code then ⟨bumpSkipped st, 0⟩
      else if !(master.contains code) then ⟨bumpSkipped st, 0⟩
      else if (attempt_loop env code 0 MAX_RETRIES).1 then
        ⟨⟨setAdd st.processed code,
          { st.stats with successful := st.stats.successful + 1 }⟩,
          (attempt_loop env code 0 MAX_RETRIES).2⟩
      else
        ⟨⟨st.processed,
          { st.stats with failed := st.stats.failed + 1 }⟩,
          (attempt_loop env code 0 MAX_RETRIES).2⟩ := rfl

theorem process_item_one_counter (env : RunEnv) (master : List String)
    (st : RunState) (code : String) :
    (process_item env master st code).state.stats =
        { st.stats with successful := st.stats.successful + 1 } ∨
    (process_item env master st code).state.stats =
        { st.stats with failed := st.stats.failed + 1 } ∨
    (process_item env master st code).state.stats =
        { st.stats with skipped := st.stats.skipped + 1 } := by
  rw [process_item_eq]
  split_ifs with h1 h2 h3
  · right; right; rfl
  · right; right; rfl
  · left; rfl
  · right; left; rfl

theorem process_item_processed_mono (env : RunEnv) (master : List String)
    (st : RunState) (code : String) :
    ∀ x ∈ st.processed, x ∈ (process_item env master st code).state.processed := by
  intro x hx
  rw [process_item_eq]
  split_ifs with h1 h2 h3
  · exact hx
  · exact hx
  · unfold setAdd
    rw [if_neg h1]
    exact List.mem_cons_of_mem _ hx
  · exact hx

theorem process_item_processed_subset (env : RunEnv) (master : List String)
    (st : RunState) (code : String) :
    ∀ x ∈ (process_item env master st code).state.processed,
      x ∈ st.processed ∨ (x = code ∧ code ∈ master) := by
  intro x hx
  rw [process_item_eq] at hx
  split_ifs at hx with h1 h2 h3
  · exact Or.inl hx
  · exact Or.inl hx
  · unfold setAdd at hx
    rw [if_neg h1] at hx
    rcases List.mem_cons.mp hx with rfl | hx
    · right
      refine ⟨rfl, ?_⟩
      simpa using h2
    · exact Or.inl hx
  · exact Or.inl hx

theorem run_loop_processed (env : RunEnv) (master : List String) :
    ∀ (l : List String) (st : RunState) (x : String),
      x ∈ (run_loop env master l st).processed →
      x ∈ st.processed ∨ (x ∈ master ∧ x ∈ l) := by
  intro l
  induction l with
  | nil => intro st x hx; exact Or.inl hx
  | cons c rest ih =>
    intro st x hx
    unfold run_loop at hx
    split_ifs at hx with hint
    · exact Or.inl hx
    · rcases ih _ x hx with hx2 | ⟨hm, hl⟩
      · rcases process_item_processed_subset env master st c x hx2 with hx3 | ⟨rfl, hc⟩
        · exact Or.inl hx3
        · exact Or.inr ⟨hc, List.mem_cons_self _ _⟩
      · exact Or.inr ⟨hm, List.mem_cons_of_mem _ hl⟩

theorem run_loop_processed_mono (env : RunEnv) (master : List String) :
    ∀ (l : List String) (st : RunState) (x : String),
      x ∈ st.processed → x ∈ (run_loop env master l st).processed := by
  intro l
  induction l with
  | nil => intro st x hx; exact hx
  | cons c rest ih =>
    intro st x hx
    unfold run_loop
    split_ifs with hint
    · exact hx
    · exact ih _ x (process_item_processed_mono env master st c x hx)

/-- C4: every item contributes to exactly one of the three counters (so
a code is counted in at most one of successful/failed/skipped); the
processed set only grows during the run; and after any run loop over a
daily list the processed set is contained in the intersection of the
master-data keys and the daily list. -/
theorem C4_run_invariants :
    (∀ (env : RunEnv) (master : List String) (st : RunState) (code : String),
      (process_item env master st code).state.stats =
          { st.stats with successful := st.stats.successful + 1 } ∨
      (process_item env master st code).state.stats =
          { st.stats with failed := st.stats.failed + 1 } ∨
      (process_item env master st code).state.stats =
          { st.stats with skipped := st.stats.skipped + 1 }) ∧
    (∀ (env : RunEnv) (master l : List String) (st : RunState) (x : String),
      x ∈ st.processed → x ∈ (run_loop env master l st).processed) ∧
    (∀ (env : RunEnv) (master l : List String) (x : String),
      x ∈ (run_loop env master l initState).processed → x ∈ master ∧ x ∈ l) := by
  refine ⟨process_item_one_counter, ?_, ?_⟩
  · intro env master l st x hx
    exact run_loop_processed_mono env master l st x hx
  · intro env master l x hx
    rcases run_loop_processed env master l initState x hx with hx0 | h
    · simp [initState] at hx0
    · exact h

/-- C4 witness: under the always-succeeding environment with master key
`"DP001"`, the item's counter moves exactly one way, monotonicity holds
for an already-processed code, and the final processed set is inside
master ∩ daily list. -/
theorem C4_run_invariants_witness :
    ((process_item allOkEnv ["DP001"] initState "DP001").state.stats =
        { initState.stats with successful := initState.stats.successful + 1 } ∨
     (process_item allOkEnv ["DP001"] initState "DP001").state.stats =
        { initState.stats with failed := initState.stats.failed + 1 } ∨
     (process_item allOkEnv ["DP001"] initState "DP001").state.stats =
        { initState.stats with skipped := initState.stats.skipped + 1 }) ∧
    ("DP009" ∈ (run_loop allOkEnv ["DP001"] ["DP001"]
        ⟨["DP009"], 0, 0, 0⟩).processed) ∧
    ("DP001" ∈ ["DP001"] ∧ "DP001" ∈ ["DP001", "DP003"]) := by
  refine ⟨C4_run_invariants.1 allOkEnv ["DP001"] initState "DP001", ?_, ?_⟩
  · exact C4_run_invariants.2.1 allOkEnv ["DP001"] ["DP001"]
      ⟨["DP009"], 0, 0, 0⟩ "DP009" (by decide)
  · exact C4_run_invariants.2.2 allOkEnv ["DP001"] ["DP001", "DP003"]
      "DP001" (by decide)

/-- C5 (corrected): duplicates in the daily input file are collapsed at
load time, before the item loop runs; the later occurrence therefore
never reaches the loop and is NOT counted as a skip — an
all-successful run over the input lines `["DP001","DP001"]` ends with
counters (successful, failed, skipped) = (1, 0, 0), skipped = 0,
although the input contains the same code twice. -/
theorem C5_duplicate_input_counterexample :
    read_daily_input ["DP001", "DP001"] = ["DP001"] ∧
    (run_automation allOkEnv ["DP001"] ["DP001", "DP001"]).1.stats =
      ⟨1, 0, 0⟩ ∧
    (run_automation allOkEnv ["DP001"] ["DP001", "DP001"]).1.stats.skipped = 0 := by
  refine ⟨by decide, by decide, by decide⟩

/-- C5 (amended): a code already in the processed set is always counted
as skipped and the workflow engine is never invoked for it; duplicate
occurrences inside the daily input, however, are removed by the loader
and never reach the loop, so they increment no counter: the spec's
scenario (master keys DP001, DP002; daily lines
`["DP001","DP003","DP001"]`) processes `["DP001","DP003"]`, with DP001
successful and DP003 skipped (absent from the lookup). -/
theorem C5_skip_idempotence_amended :
    (∀ (env : RunEnv) (master : List String) (st : RunState) (code : String),
      st.processed.contains code = true →
        process_item env master st code = ⟨bumpSkipped st, 0⟩) ∧
    (read_daily_input ["DP001", "DP003", "DP001"] = ["DP001", "DP003"] ∧
     run_automation allOkEnv ["DP001", "DP002"] ["DP001", "DP003", "DP001"] =
       (⟨["DP001"], 1, 0, 1⟩,
        [RunEffect.report ⟨1, 0, 1⟩ 2, RunEffect.cleanup])) := by
  constructor
  · intro env master st code h
    rw [process_item_eq, if_pos h]
  · exact ⟨by decide, by decide⟩

/-- C5 witness: a state that already processed `"DP001"` skips it with
zero engine invocations. -/
theorem C5_skip_idempotence_witness :
    ((⟨["DP001"], 1, 0, 0⟩ : RunState).processed.contains "DP001" = true) ∧
    process_item allOkEnv ["DP001"] ⟨["DP001"], 1, 0, 0⟩ "DP001" =
      ⟨⟨["DP001"], 1, 0, 1⟩, 0⟩ := by
  refine ⟨by decide, ?_⟩
  have h := C5_skip_idempotence_amended.1 allOkEnv ["DP001"]
    ⟨["DP001"], 1, 0, 0⟩ "DP001" (by decide)
  simpa [bumpSkipped] using h

theorem run_loop_stops_at_interrupt (env : RunEnv) (master : List String) :
    ∀ (l1 : List String), (∀ d ∈ l1, env.interrupt d = false) →
    ∀ (c : String) (l2 : List String) (st : RunState), env.interrupt c = true →
      run_loop env master (l1 ++ c :: l2) st = run_loop env master l1 st := by
  intro l1
  induction l1 with
  | nil =>
    intro _ c l2 st hc
    rw [List.nil_append]
    unfold run_loop
    rw [if_pos hc]
  | cons d rest ih =>
    intro hno c l2 st hc
    have hd : env.interrupt d = false := hno d (List.mem_cons_self _ _)
    rw [List.cons_append]
    unfold run_loop
    rw [if_neg (by rw [hd]; simp), if_neg (by rw [hd]; simp)]
    exact ih (fun x hx => hno x (List.mem_cons_of_mem _ hx)) c l2 _ hc

/-- C9 (code bug): on the failing input — master keys and daily list
`["DP001","DP002","DP003"]`, SIGINT delivered while `"DP002"` is being
processed — the item loop does stop early with the interrupted item
uncounted and the statistics of the prefix preserved in memory
(1 success, 0 failed, 0 skipped), and the session cleanup still runs
before exit; but the run's effects are `[cleanup]` alone: no
`report` effect is ever emitted, because the handler's `sys.exit(0)`
raises `SystemExit` past `except KeyboardInterrupt`, so
`generate_final_report` is skipped — contradicting the claim's
"final summary, which the run always attempts to produce". -/
theorem C9_report_skipped_on_interrupt :
    interruptedEnv.interrupt "DP002" = true ∧
    run_loop interruptedEnv ["DP001", "DP002", "DP003"]
        ["DP001", "DP002", "DP003"] initState =
      run_loop interruptedEnv ["DP001", "DP002", "DP003"] ["DP001"] initState ∧
    (run_automation interruptedEnv ["DP001", "DP002", "DP003"]
        ["DP001", "DP002", "DP003"]).1.stats = ⟨1, 0, 0⟩ ∧
    (run_automation interruptedEnv ["DP001", "DP002", "DP003"]
        ["DP001", "DP002", "DP003"]).2 = [RunEffect.cleanup] ∧
    (run_automation allOkEnv ["DP001", "DP002", "DP003"]
        ["DP001", "DP002", "DP003"]).2 =
      [RunEffect.report ⟨3, 0, 0⟩ 3, RunEffect.cleanup] := by
  refine ⟨by decide, by decide, by decide, by decide, by decide⟩

/-- C10: the success rate is successful divided by (total items minus
skipped), times 100 — skipped items are excluded from the denominator —
and it is reported only when total minus skipped is positive; a run in
which every item was skipped reports no success rate and never divides
by zero. -/
theorem C10_success_rate :
    ∀ successful skipped totalItems : Nat,
      (totalItems ≤ skipped →
        success_rate successful skipped totalItems = none) ∧
      (skipped < totalItems →
        success_rate successful skipped totalItems =
          some ((successful : Rat) /
            (((totalItems : Int) - (skipped : Int) : Int) : Rat) * 100)) ∧
      (skipped = totalItems →
        success_rate successful skipped totalItems = none) := by
  intro successful skipped totalItems
  refine ⟨?_, ?_, ?_⟩
  · intro h
    unfold success_rate
    rw [if_neg (by omega)]
  · intro h
    unfold success_rate
    rw [if_pos (by omega)]
  · intro h
    unfold success_rate
    rw [if_neg (by omega)]

/-- C10 witness: an all-skipped run (2 items, 2 skipped) reports no
rate; a run with 3 items, 1 skipped and 2 successes reports
2 / (3 - 1) * 100. -/
theorem C10_success_rate_witness :
    ((2 : Nat) ≤ 2 ∧ success_rate 5 2 2 = none) ∧
    ((1 : Nat) < 3 ∧ success_rate 2 1 3 =
      some ((2 : Rat) / (((3 : Int) - (1 : Int) : Int) : Rat) * 100)) :=
  ⟨⟨by decide, (C10_success_rate 5 2 2).1 (by decide)⟩,
   ⟨by decide, (C10_success_rate 2 1 3).2.1 (by decide)⟩⟩

end DPBot
